import Mathlib

/-!
# Verification of the Agent Execution & Container Orchestration core

Shallow embedding of the two core source files of the repository:

* `src/agent_app.py` — the in-sandbox agent runner (`run_agent`, `main`,
  the crash-recovery state file).
* `src/server/services/container_manager.py` — the host-side orchestrator
  (`ContainerManager`, `sanitize_output`, the idle sweep and the health
  monitor).

External effects (Docker subprocess calls, the filesystem, the agent SDK
engine, wall-clock time) are modelled as explicit oracle values threaded
through each function, so every definition stays executable and every
branch of the Python source has a corresponding branch here.
-/

namespace Autocoder

/-! ## Sandboxed Agent Runner (`src/agent_app.py`) -/

/-- Crash-recovery state persisted by the runner (`save_state`).  The
timestamp fields (`started_at`, `interrupted_at`, `failed_at`,
`updated_at`), `prompt_length`, and `traceback` are pure metadata not
branched on anywhere, and are omitted. -/
structure AgentRunState where
  status : String
  attempt : Nat
  error : Option String
  errorType : Option String
deriving DecidableEq, Repr

/-- Outcome of one invocation of the agent-SDK engine (`query(...)` loop)
inside an attempt: completes normally, raises `KeyboardInterrupt`, or
raises some other exception carrying a message and a type name. -/
inductive EngineOutcome
  | completes
  | interrupted
  | fails (msg ty : String)
deriving DecidableEq, Repr

/-- Result of a whole runner process: the exit code, the final content of
the crash-recovery state file, the list of `save_state` calls performed,
the back-off sleeps performed (seconds), and how many times the engine
was invoked. -/
structure RunResult where
  exitCode : Nat
  stateFile : Option AgentRunState
  writes : List AgentRunState
  sleeps : List Nat
  engineCalls : Nat
deriving DecidableEq, Repr

/-- The retry loop of `run_agent`.  The Python loop is
`while attempt < max_retries: attempt += 1; ...`; here `remaining`
carries the invariant `remaining = maxRetries - attempt`, so
`remaining = 0` is exactly the loop exit (which returns 1).  On each
attempt the runner persists `status=in_progress`, invokes the engine,
and then: on completion deletes the state file and exits 0; on
`KeyboardInterrupt` persists `status=interrupted` and exits 130 with no
retry; on any other exception sleeps `2^attempt` seconds if attempts
remain, else persists `status=failed` with the error detail (the loop
then exits and returns 1). -/
def runAgentGo (engine : Nat → EngineOutcome) (maxRetries : Nat) :
    Nat → Nat → Option AgentRunState → List AgentRunState → List Nat → Nat → RunResult
  | 0, _, stateFile, writes, sleeps, calls =>
      { exitCode := 1, stateFile := stateFile, writes := writes,
        sleeps := sleeps, engineCalls := calls }
  | remaining + 1, attempt, _, writes, sleeps, calls =>
      let a := attempt + 1
      let stInProgress : AgentRunState :=
        { status := "in_progress", attempt := a, error := none, errorType := none }
      match engine a with
      | .completes =>
          -- clear_state() then `return 0`
          { exitCode := 0, stateFile := none, writes := writes ++ [stInProgress],
            sleeps := sleeps, engineCalls := calls + 1 }
      | .interrupted =>
          let stInterrupted : AgentRunState :=
            { status := "interrupted", attempt := a, error := none, errorType := none }
          { exitCode := 130, stateFile := some stInterrupted,
            writes := writes ++ [stInProgress, stInterrupted],
            sleeps := sleeps, engineCalls := calls + 1 }
      | .fails msg ty =>
          if a < maxRetries then
            runAgentGo engine maxRetries remaining a (some stInProgress)
              (writes ++ [stInProgress]) (sleeps ++ [2 ^ a]) (calls + 1)
          else
            let stFailed : AgentRunState :=
              { status := "failed", attempt := a, error := some msg, errorType := some ty }
            { exitCode := 1, stateFile := some stFailed,
              writes := writes ++ [stInProgress, stFailed],
              sleeps := sleeps, engineCalls := calls + 1 }

/-- `run_agent(prompt, project_dir, max_retries)` from `src/agent_app.py`.
`init` is the state-file content left by a previous process (read only
for the informational `[RECOVERY]` notice, which changes no behavior). -/
def runAgent (init : Option AgentRunState) (engine : Nat → EngineOutcome)
    (maxRetries : Nat) : RunResult :=
  runAgentGo engine maxRetries maxRetries 0 init [] [] 0

/-- Python `\s` (ASCII range) — the whitespace recognized by `str.strip()`
and excluded by `[^\s]` in the sanitizer patterns. -/
def pySpace (c : Char) : Bool :=
  c = ' ' || c = '\t' || c = '\n' || c = '\r' || c = '\x0b' || c = '\x0c'

/-- `not prompt.strip()` — true iff the string is empty or all whitespace. -/
def pyBlank (s : String) : Bool :=
  s.data.all pySpace

/-- `main()` from `src/agent_app.py`: read the prompt from stdin; if blank,
print an error and return 1 (the engine is never invoked and no state is
written); otherwise run `run_agent(prompt, "/project")` with the default
retry budget 3. -/
def mainEntry (stdin : String) (init : Option AgentRunState)
    (engine : Nat → EngineOutcome) : RunResult :=
  if pyBlank stdin then
    { exitCode := 1, stateFile := init, writes := [], sleeps := [], engineCalls := 0 }
  else
    runAgent init engine 3

/-- `STATE_FILE` from `src/agent_app.py`: the path the runner persists
crash-recovery state to (per its comment: in the coder home directory,
not the project dir, due to permissions). -/
def STATE_FILE : String := "/home/coder/.agent_state.json"

/-- The in-container mount point of the project directory: the
orchestrator creates the container with `-v {project_dir}:/project`. -/
def PROJECT_MOUNT : String := "/project"

/-- The path `_handle_agent_exit` reads for crash diagnostics
(`self.project_dir / ".agent_state.json"`), seen from inside the
container through the `-v {project_dir}:/project` mount. -/
def orchestratorStatePath : String := PROJECT_MOUNT ++ "/.agent_state.json"

/-- Spec-side restatement of the claimed runner behavior (C3), stated
from the words of the claim for comparison with `runAgent`: with N = 3, the
run is determined by the first three engine outcomes — exit 0 on the
first completion (state file deleted), exit 130 immediately on
interruption (`status=interrupted` persisted, no retry), exit 1 after
three failures (`status=failed` persisted with the last error), with a
`2^attempt`-second sleep between consecutive failed attempts. -/
structure RunView where
  exitCode : Nat
  stateFile : Option AgentRunState
  sleeps : List Nat
deriving DecidableEq, Repr

/-- Projection of a `RunResult` onto the fields the claim talks about. -/
def runView (r : RunResult) : RunView :=
  { exitCode := r.exitCode, stateFile := r.stateFile, sleeps := r.sleeps }

/-- Spec-side run outcome for retry budget 3 (see `RunView`). -/
def runAgentSpec3 (o1 o2 o3 : EngineOutcome) : RunView :=
  match o1 with
  | .completes => { exitCode := 0, stateFile := none, sleeps := [] }
  | .interrupted =>
      { exitCode := 130,
        stateFile := some { status := "interrupted", attempt := 1, error := none, errorType := none },
        sleeps := [] }
  | .fails _ _ =>
    match o2 with
    | .completes => { exitCode := 0, stateFile := none, sleeps := [2] }
    | .interrupted =>
        { exitCode := 130,
          stateFile := some { status := "interrupted", attempt := 2, error := none, errorType := none },
          sleeps := [2] }
    | .fails _ _ =>
      match o3 with
      | .completes => { exitCode := 0, stateFile := none, sleeps := [2, 4] }
      | .interrupted =>
          { exitCode := 130,
            stateFile := some { status := "interrupted", attempt := 3, error := none, errorType := none },
            sleeps := [2, 4] }
      | .fails msg ty =>
          { exitCode := 1,
            stateFile := some { status := "failed", attempt := 3, error := some msg, errorType := some ty },
            sleeps := [2, 4] }

/-! ## Output Sanitizer (`sanitize_output`, `container_manager.py` lines 33–47)

`sanitize_output` applies `re.sub` with replacement `[REDACTED]` and `re.IGNORECASE`
for each pattern of `SENSITIVE_PATTERNS` in order.  The six patterns are
embedded as dedicated matchers; `re.sub` semantics (leftmost match,
greedy quantifiers — none of these patterns needs backtracking) are
implemented by a left-to-right scan.  Case folding is ASCII, as in the
ASCII-only patterns of the source. -/

/-- The replacement marker used by `sanitize_output`. -/
def REDACTED : String := "[REDACTED]"

/-- Match a literal word case-insensitively (word given in lowercase);
returns the remainder after the word. -/
def matchLitCI : List Char → List Char → Option (List Char)
  | [], rest => some rest
  | _ :: _, [] => none
  | p :: ps, c :: cs => if c.toLower = p then matchLitCI ps cs else none

/-- Greedy run of characters satisfying `f`: its length and the rest. -/
def takeRun (f : Char → Bool) : List Char → Nat × List Char
  | [] => (0, [])
  | c :: cs =>
      if f c then
        let r := takeRun f cs
        (r.1 + 1, r.2)
      else (0, c :: cs)

/-- `word` followed by one of `seps` followed by `[^\s]+` (greedy). -/
def matchAssign (word : List Char) (seps : List Char) (l : List Char) :
    Option (List Char) :=
  match matchLitCI word l with
  | none => none
  | some rest =>
    match rest with
    | [] => none
    | c :: cs =>
        if seps.contains c then
          let r := takeRun (fun ch => !pySpace ch) cs
          if 1 ≤ r.1 then some r.2 else none
        else none

/-- `sk-[a-zA-Z0-9]{20,}` (case-insensitive). -/
def tryMatchSk (l : List Char) : Option (List Char) :=
  match matchLitCI ['s', 'k', '-'] l with
  | none => none
  | some rest =>
      let r := takeRun Char.isAlphanum rest
      if 20 ≤ r.1 then some r.2 else none

/-- `api[_-]?key[=:][^\s]+` (case-insensitive); the optional `[_-]` is
deterministic here since `_`/`-` and `k` are disjoint. -/
def tryMatchApiKey (l : List Char) : Option (List Char) :=
  match matchLitCI ['a', 'p', 'i'] l with
  | none => none
  | some rest =>
      let rest2 :=
        match rest with
        | c :: cs => if c = '_' || c = '-' then cs else rest
        | [] => rest
      matchAssign ['k', 'e', 'y'] ['=', ':'] rest2

/-- The six entries of `SENSITIVE_PATTERNS`, in source order. -/
inductive Pat
  | skKey          -- regex "sk-[a-zA-Z0-9]{20,}"
  | anthropicKey   -- regex "ANTHROPIC_API_KEY=[^\s]+"
  | apiKeyAssign   -- regex "api[_-]?key[=:][^\s]+"
  | tokenAssign    -- regex "token[=:][^\s]+"
  | passwordAssign -- regex "password[=:][^\s]+"
  | secretAssign   -- regex "secret[=:][^\s]+"
deriving DecidableEq, Repr

/-- Try to match a pattern at the head of the list; on success return the
remainder after the matched substring. -/
def tryMatch : Pat → List Char → Option (List Char)
  | .skKey, l => tryMatchSk l
  | .anthropicKey, l =>
      matchAssign
        ['a', 'n', 't', 'h', 'r', 'o', 'p', 'i', 'c', '_', 'a', 'p', 'i', '_', 'k', 'e', 'y']
        ['='] l
  | .apiKeyAssign, l => tryMatchApiKey l
  | .tokenAssign, l => matchAssign ['t', 'o', 'k', 'e', 'n'] ['=', ':'] l
  | .passwordAssign, l => matchAssign ['p', 'a', 's', 's', 'w', 'o', 'r', 'd'] ['=', ':'] l
  | .secretAssign, l => matchAssign ['s', 'e', 'c', 'r', 'e', 't'] ['=', ':'] l

/-- One `re.sub` pass: scan left to right,
replacing each (leftmost, greedy) match and continuing after it.  Every
match consumes at least one character while the scan consumes at least
one unit of fuel per emitted character, so `fuel = l.length` (as used in
`subst`) never runs out before the list does. -/
def substGo (p : Pat) : Nat → List Char → List Char
  | 0, l => l
  | _ + 1, [] => []
  | fuel + 1, c :: cs =>
    match tryMatch p (c :: cs) with
    | some rest => REDACTED.data ++ substGo p fuel rest
    | none => c :: substGo p fuel cs

/-- One substitution pass over a character list. -/
def subst (p : Pat) (l : List Char) : List Char :=
  substGo p l.length l

/-- Source order of `SENSITIVE_PATTERNS`. -/
def SENSITIVE_PATTERNS : List Pat :=
  [.skKey, .anthropicKey, .apiKeyAssign, .tokenAssign, .passwordAssign, .secretAssign]

/-- `sanitize_output(line)`: fold the six substitution passes in order. -/
def sanitize_output (s : String) : String :=
  String.mk (SENSITIVE_PATTERNS.foldl (fun l p => subst p l) s.data)

/-- Does `p` start the list (i.e., is `pat` a leading segment of `l`)? -/
def startsWith : List Char → List Char → Bool
  | [], _ => true
  | _ :: _, [] => false
  | p :: ps, c :: cs => if p = c then startsWith ps cs else false

/-- Does the `[REDACTED]` marker occur anywhere in the list? -/
def hasMarker : List Char → Bool
  | [] => false
  | c :: cs => startsWith REDACTED.data (c :: cs) || hasMarker cs

/-- Does `p` match starting at some position of `l`? -/
def matchSomewhere (p : Pat) : List Char → Bool
  | [] => false
  | c :: cs => (tryMatch p (c :: cs)).isSome || matchSomewhere p cs

/-- Does any of the six sanitizer patterns match somewhere in the line? -/
def hasSensitive (s : String) : Bool :=
  SENSITIVE_PATTERNS.any (fun p => matchSomewhere p s.data)

/-- Python `str.rstrip()` (ASCII whitespace). -/
def pyRstrip (s : String) : String :=
  String.mk ((s.data.reverse.dropWhile pySpace).reverse)

/-- The per-line processing of `_stream_logs` (`container_manager.py`
lines 244–256): decode, `rstrip`, then `sanitize_output`, before
`_broadcast_output`. -/
def streamLogsLine (decoded : String) : String :=
  sanitize_output (pyRstrip decoded)

/-- The per-line processing of `send_instruction` (`container_manager.py`
lines 429–438): decode, `rstrip`, then `sanitize_output`, before
`_broadcast_output`. -/
def sendInstructionLine (decoded : String) : String :=
  sanitize_output (pyRstrip decoded)

/-! ## Container Lifecycle Controller (`ContainerManager`)

The in-memory per-project manager state, the actual Docker runtime state,
and the oracle for every external effect (subprocess results, filesystem
reads, timestamps).  Each method of `ContainerManager` becomes a function
`Env → World → OpResult` whose branches mirror the Python source.  The
mutual recursion `send_instruction → _handle_agent_exit → restart_agent →
start → send_instruction` is cut at the runner invocation:
`dispatchInstruction` models `send_instruction` up to handing the
instruction to the runner, with everything after the `docker exec`
(output streaming and the recursive exit handling of the *next* run)
abstracted into the `dispatchOk`/`dispatchMsg` oracle fields. -/

/-- Manager lifecycle status (`self._status`). -/
inductive MStatus
  | notCreated
  | running
  | stopped
  | completed
deriving DecidableEq, Repr

/-- In-memory fields of one `ContainerManager` relevant to the claims. -/
structure Mgr where
  containerName : String
  status : MStatus
  startedAt : Option Nat
  lastActivity : Option Nat
  userStarted : Bool
  restarting : Bool
  logTask : Bool
deriving DecidableEq, Repr

/-- The actual Docker runtime state of the container, as `docker inspect`
would report it (`running` / exists-but-stopped / no such container). -/
inductive DockerState
  | running
  | stoppedC
  | absent
deriving DecidableEq, Repr

/-- Manager state plus the container runtime it supervises. -/
structure World where
  docker : DockerState
  mgr : Mgr
deriving DecidableEq, Repr

/-- Outcome of the `docker stop` subprocess call inside `stop()`:
returncode 0, nonzero returncode, or `subprocess.TimeoutExpired`. -/
inductive StopOutcome
  | ok
  | fail
  | timeout
deriving DecidableEq, Repr

/-- What `_handle_agent_exit` finds at `project_dir/.agent_state.json`:
no file, a file whose JSON fails to parse, or a parsed state. -/
inductive StateFileView
  | absent
  | unreadable
  | parsed (st : AgentRunState)
deriving DecidableEq, Repr

/-- Oracle for every external effect of one orchestration step. -/
structure Env where
  dockerStartOk : Bool            -- `docker start` returncode == 0
  dockerRunOk : Bool              -- `docker run` returncode == 0
  stopOutcome : StopOutcome       -- `docker stop` result
  dockerErr : String              -- stderr text used in failure messages
  sdkReady : Bool                 -- the bounded SDK-readiness poll succeeds
  promptExists : Bool             -- prompts/coding_prompt.md exists
  promptContent : Option String   -- its content (none: read_text raises)
  projectStateFile : StateFileView -- project_dir/.agent_state.json
  issuesFile : Option (List String) -- .beads/issues.jsonl statuses (none: no file)
  agentAlive : Bool               -- pgrep for the runner process succeeds
  dispatchOk : Bool               -- abstracted result of the dispatched run
  dispatchMsg : String
  now : Nat                       -- datetime.now()
deriving DecidableEq, Repr

/-- Observable actions, in execution order. -/
inductive Event
  | statusChange (s : MStatus)    -- fired by the `status` property setter
  | broadcast (line : String)     -- `_broadcast_output`
  | dockerStop
  | dockerKill
  | dockerStart
  | dockerRun
  | setRestarting (b : Bool)
  | sleepEv (n : Nat)             -- asyncio.sleep
  | dispatch (instruction : String) -- runner invoked with this instruction
  | logTaskStart
  | logTaskCancel
deriving DecidableEq, Repr

/-- Result of one manager operation: the `(success, message)` pair, the
post-state, and the event trace. -/
structure OpResult where
  ok : Bool
  msg : String
  world : World
  events : List Event
deriving DecidableEq, Repr

/-- `_sync_status()`: overwrite the cached status from `docker inspect`
(writing `self._status` directly, so no status-change notification). -/
def syncStatus (w : World) : World :=
  match w.docker with
  | .running => { w with mgr := { w.mgr with status := .running } }
  | .stoppedC => { w with mgr := { w.mgr with status := .stopped } }
  | .absent => { w with mgr := { w.mgr with status := .notCreated } }

/-- The `status` property setter: assign, and notify only on change. -/
def setStatus (w : World) (s : MStatus) : World × List Event :=
  let old := w.mgr.status
  let w2 := { w with mgr := { w.mgr with status := s } }
  if old = s then (w2, []) else (w2, [Event.statusChange s])

/-- `is_idle()`: more than `IDLE_TIMEOUT_MINUTES = 60` minutes since
`last_activity`; false when no activity was ever recorded.  Time is in
seconds. -/
def isIdle (now : Nat) (m : Mgr) : Bool :=
  match m.lastActivity with
  | none => false
  | some t => decide (3600 < now - t)

/-- `has_open_features()`: count entries of `.beads/issues.jsonl` in
`open`/`in_progress` state; false when the file is missing.  The oracle
carries the already-parsed per-line statuses (lines failing JSON decode
are skipped by the source and simply not listed). -/
def hasOpenFeatures (env : Env) : Bool :=
  match env.issuesFile with
  | none => false
  | some statuses =>
      0 < (statuses.filter (fun s => s = "open" || s = "in_progress")).length

/-- `is_agent_running()`: false unless the cached status is `running`;
otherwise the result of `pgrep` inside the container. -/
def isAgentRunning (env : Env) (w : World) : Bool :=
  if w.mgr.status ≠ MStatus.running then false else env.agentAlive

/-- `stop()`: re-sync, require `running`, cancel the log-streaming task
(awaiting its cancellation), then `docker stop` with a 30 s bound —
escalating to `docker kill` on timeout.  Transitions to `stopped` except
when `docker stop` fails with a nonzero returncode. -/
def stop (env : Env) (w : World) : OpResult :=
  let w := syncStatus w
  if w.mgr.status ≠ MStatus.running then
    { ok := false, msg := "Container is not running", world := w, events := [] }
  else
    let cancelled : World × List Event :=
      if w.mgr.logTask then
        ({ w with mgr := { w.mgr with logTask := false } }, [Event.logTaskCancel])
      else (w, [])
    let w := cancelled.1
    let evs := cancelled.2
    match env.stopOutcome with
    | .ok =>
        let w := { w with docker := .stoppedC }
        let r := setStatus w .stopped
        { ok := true, msg := "Container " ++ r.1.mgr.containerName ++ " stopped",
          world := r.1, events := evs ++ [Event.dockerStop] ++ r.2 }
    | .fail =>
        { ok := false, msg := "Failed to stop container: " ++ env.dockerErr,
          world := w, events := evs ++ [Event.dockerStop] }
    | .timeout =>
        let w := { w with docker := .stoppedC }
        let r := setStatus w .stopped
        { ok := true, msg := "Container " ++ r.1.mgr.containerName ++ " killed (timeout)",
          world := r.1, events := evs ++ [Event.dockerStop, Event.dockerKill] ++ r.2 }

/-- `send_instruction(instruction)` up to the runner invocation: re-sync,
require `running`, update `last_activity`, write the instruction to the
stdin of the runner and `docker exec` the runner.  The streamed output and the
recursive `_handle_agent_exit` of that run are abstracted into the
`dispatchOk`/`dispatchMsg` oracle (see the section header). -/
def dispatchInstruction (env : Env) (w : World) (instruction : String) : OpResult :=
  let w := syncStatus w
  if w.mgr.status ≠ MStatus.running then
    { ok := false, msg := "Container is not running", world := w, events := [] }
  else
    let w := { w with mgr := { w.mgr with lastActivity := some env.now } }
    { ok := env.dispatchOk, msg := env.dispatchMsg, world := w,
      events := [Event.dispatch instruction] }

/-- `start(instruction=None)`: re-sync; if already running, deliver the
instruction if any (marking `user_started`) or return.  Otherwise
`docker start` a stopped container or `docker run` a fresh one; then
record `started_at`/`last_activity`, set status `running`, mark
`user_started` (unconditionally), start the log-streaming task, and — if
an instruction was given — poll for SDK readiness (bounded; failure is a
reported error) and dispatch it. -/
def start (env : Env) (w : World) (instruction : Option String) : OpResult :=
  let w := syncStatus w
  if w.mgr.status = MStatus.running then
    match instruction with
    | some ins =>
        let w := { w with mgr := { w.mgr with userStarted := true } }
        dispatchInstruction env w ins
    | none => { ok := true, msg := "Container already running", world := w, events := [] }
  else
    let boot : Option String × World × List Event :=
      if w.mgr.status = MStatus.stopped then
        if env.dockerStartOk then (none, { w with docker := .running }, [Event.dockerStart])
        else (some ("Failed to start container: " ++ env.dockerErr), w, [Event.dockerStart])
      else
        if env.dockerRunOk then (none, { w with docker := .running }, [Event.dockerRun])
        else (some ("Failed to create container: " ++ env.dockerErr), w, [Event.dockerRun])
    match boot with
    | (some errMsg, w, evs) => { ok := false, msg := errMsg, world := w, events := evs }
    | (none, w, evs) =>
        let w := { w with mgr := { w.mgr with startedAt := some env.now, lastActivity := some env.now } }
        let r := setStatus w .running
        let w := { r.1 with mgr := { r.1.mgr with userStarted := true, logTask := true } }
        let evs := evs ++ r.2 ++ [Event.logTaskStart]
        match instruction with
        | none =>
            { ok := true, msg := "Container " ++ w.mgr.containerName ++ " started",
              world := w, events := evs }
        | some ins =>
            if env.sdkReady then
              let d := dispatchInstruction env w ins
              { d with events := evs ++ d.events }
            else
              { ok := false, msg := "Agent SDK not available in container after 20 seconds",
                world := w, events := evs }

/-- `start_container_only()`: like `start` but never marks `user_started`
and never sends an instruction (used for edit-only sessions). -/
def startContainerOnly (env : Env) (w : World) : OpResult :=
  let w := syncStatus w
  if w.mgr.status = MStatus.running then
    { ok := true, msg := "Container already running", world := w, events := [] }
  else
    let boot : Option String × World × List Event :=
      if w.mgr.status = MStatus.stopped ∨ w.mgr.status = MStatus.completed then
        if env.dockerStartOk then (none, { w with docker := .running }, [Event.dockerStart])
        else (some ("Failed to start container: " ++ env.dockerErr), w, [Event.dockerStart])
      else
        if env.dockerRunOk then (none, { w with docker := .running }, [Event.dockerRun])
        else (some ("Failed to create container: " ++ env.dockerErr), w, [Event.dockerRun])
    match boot with
    | (some errMsg, w, evs) => { ok := false, msg := errMsg, world := w, events := evs }
    | (none, w, evs) =>
        let w := { w with mgr := { w.mgr with startedAt := some env.now, lastActivity := some env.now } }
        let r := setStatus w .running
        -- the source deliberately does NOT set _user_started here
        let w := { r.1 with mgr := { r.1.mgr with logTask := true } }
        { ok := true, msg := "Container " ++ w.mgr.containerName ++ " started (idle mode)",
          world := w, events := evs ++ r.2 ++ [Event.logTaskStart] }

/-- `restart_agent()`: set the `_restarting` guard, stop the container
(result unused), read `prompts/coding_prompt.md`, and `start` with it;
the `try/finally` clears the guard on every path. -/
def restartAgent (env : Env) (w : World) : OpResult :=
  let w0 := { w with mgr := { w.mgr with restarting := true } }
  let body : OpResult :=
    let s := stop env w0
    if env.promptExists then
      match env.promptContent with
      | some p =>
          let r := start env s.world (some p)
          { r with events := s.events ++ r.events }
      | none =>
          { ok := false, msg := "Failed to read coding prompt",
            world := s.world, events := s.events }
    else
      { ok := false, msg := "No coding_prompt.md found in project",
        world := s.world, events := s.events }
  { body with
    world := { body.world with mgr := { body.world.mgr with restarting := false } },
    events := Event.setRestarting true :: (body.events ++ [Event.setRestarting false]) }

/-- The branch taken by `_handle_agent_exit`: either a final
`(success, message)` or the decision to call `restart_agent()` (deferred
so the mutually recursive restart can be studied separately). -/
inductive HandlerStep
  | done (ok : Bool) (msg : String)
  | restart
deriving DecidableEq, Repr

/-- Branch outcome of `_handle_agent_exit`: events emitted before the
step, the post-state, and the step taken. -/
structure HandlerOut where
  pre : List Event
  world : World
  step : HandlerStep
deriving DecidableEq, Repr

/-- `_handle_agent_exit(exit_code)` (`container_manager.py` lines
454–510).  `0`: restart for the next feature if `user_started` and open
features remain; else if `user_started` stop, transition to `completed`
and report; else plain success.  `130`: broadcast the interruption,
never restart.  Any other code: read `project_dir/.agent_state.json` for
diagnostics if present, then auto-restart after a 5 s delay if
`user_started` and open features remain, else report failure. -/
def handleAgentExit (env : Env) (w : World) (exitCode : Int) : HandlerOut :=
  if exitCode = 0 then
    if w.mgr.userStarted && hasOpenFeatures env then
      { pre := [Event.broadcast "[System] Session complete. Starting fresh context for next task..."],
        world := w, step := .restart }
    else if w.mgr.userStarted && !hasOpenFeatures env then
      let s := stop env w
      let r := setStatus s.world .completed
      { pre := Event.broadcast "[System] All features complete!" :: (s.events ++ r.2),
        world := r.1, step := .done true "All features complete" }
    else
      { pre := [], world := w, step := .done true "Instruction completed" }
  else if exitCode = 130 then
    { pre := [Event.broadcast "[System] Agent interrupted by user"],
      world := w, step := .done true "Agent interrupted" }
  else
    let diag : String × List Event :=
      match env.projectStateFile with
      | .parsed st =>
          (st.error.getD "unknown error",
           [Event.broadcast ("[System] Agent error: " ++ st.errorType.getD "Exception"
              ++ ": " ++ st.error.getD "unknown error")])
      | .unreadable => ("unknown error", [])
      | .absent => ("unknown error", [])
    if w.mgr.userStarted && hasOpenFeatures env then
      { pre := diag.2 ++ [Event.broadcast "[System] Auto-restarting after error...", Event.sleepEv 5],
        world := w, step := .restart }
    else
      { pre := diag.2, world := w, step := .done false ("Agent failed: " ++ diag.1) }

/-- `_handle_agent_exit` with the deferred `restart_agent()` call carried
out, giving the complete trace of the exit-handling sequence. -/
def handleAgentExitFull (env : Env) (w : World) (exitCode : Int) : OpResult :=
  let h := handleAgentExit env w exitCode
  match h.step with
  | .done ok msg => { ok := ok, msg := msg, world := h.world, events := h.pre }
  | .restart =>
      let r := restartAgent env h.world
      { r with events := h.pre ++ r.events }

/-! ## Idle Reaper and Health Monitor sweeps -/

/-- Result of examining one manager during a health-monitor sweep. -/
structure MonitorOut where
  attempted : Bool   -- restart_agent() was invoked
  ok : Bool          -- and reported success
  world : World
  events : List Event
deriving DecidableEq, Repr

/-- Treatment of one manager by `monitor_agent_health` (lines 770–798):
skip unless `user_started`, skip while `_restarting`, skip unless cached
status is `running`, skip while the runner process is alive; otherwise
call `restart_agent()` (exceptions are caught per-manager). -/
def monitorStep (env : Env) (w : World) : MonitorOut :=
  if !w.mgr.userStarted then { attempted := false, ok := false, world := w, events := [] }
  else if w.mgr.restarting then { attempted := false, ok := false, world := w, events := [] }
  else if w.mgr.status ≠ MStatus.running then
    { attempted := false, ok := false, world := w, events := [] }
  else if isAgentRunning env w then
    { attempted := false, ok := false, world := w, events := [] }
  else
    let r := restartAgent env w
    { attempted := true, ok := r.ok, world := r.world, events := r.events }

/-- A whole `monitor_agent_health` sweep over the registry snapshot:
returns the names of successfully restarted containers and the
post-states, in order. -/
def monitorSweep : List (Env × World) → List String × List World
  | [] => ([], [])
  | ew :: rest =>
      let r := monitorStep ew.1 ew.2
      let tail := monitorSweep rest
      ((if r.attempted && r.ok then [ew.2.mgr.containerName] else []) ++ tail.1,
       r.world :: tail.2)

/-- Treatment of one manager by `cleanup_idle_containers` (lines 661–680):
stop it iff its cached status is `running` and it is idle; record its
name iff the stop reported success. -/
def cleanupStep (env : Env) (w : World) : Option String × World :=
  if w.mgr.status = MStatus.running && isIdle env.now w.mgr then
    let r := stop env w
    (if r.ok then some w.mgr.containerName else none, r.world)
  else (none, w)

/-- A whole `cleanup_idle_containers` sweep over the registry snapshot. -/
def cleanupIdleContainers : List (Env × World) → List String × List World
  | [] => ([], [])
  | ew :: rest =>
      let r := cleanupStep ew.1 ew.2
      let tail := cleanupIdleContainers rest
      ((match r.1 with | some n => n :: tail.1 | none => tail.1), r.2 :: tail.2)

/-! ## Concrete fixtures used by witnesses and counterexamples -/

/-- An engine that always raises `RuntimeError("boom")`. -/
def failEngine : Nat → EngineOutcome := fun _ => .fails "boom" "RuntimeError"

/-- A fully healthy oracle: every Docker call succeeds, the SDK is ready,
the coding prompt exists, one backlog item is open, no crash state file. -/
def sampleEnv : Env :=
  { dockerStartOk := true, dockerRunOk := true, stopOutcome := .ok,
    dockerErr := "err", sdkReady := true, promptExists := true,
    promptContent := some "Implement the next feature",
    projectStateFile := .absent, issuesFile := some ["open", "closed"],
    agentAlive := true, dispatchOk := true, dispatchMsg := "dispatched",
    now := 10000 }

/-- A user-started manager currently running. -/
def sampleMgrUser : Mgr :=
  { containerName := "autocoder-demo", status := .running, startedAt := some 0,
    lastActivity := some 9000, userStarted := true, restarting := false,
    logTask := true }

/-- Its world, with the container actually running. -/
def sampleWorldUser : World := { docker := .running, mgr := sampleMgrUser }

/-- The same manager, not user-started. -/
def sampleWorldNoUser : World :=
  { docker := .running, mgr := { sampleMgrUser with userStarted := false } }

/-- The same manager, mid-restart (guard set). -/
def sampleWorldRestarting : World :=
  { docker := .running, mgr := { sampleMgrUser with restarting := true } }

/-- A manager whose container was never created. -/
def sampleWorldFresh : World :=
  { docker := .absent,
    mgr := { containerName := "autocoder-demo", status := .notCreated,
             startedAt := none, lastActivity := none, userStarted := false,
             restarting := false, logTask := false } }

/-- Oracle for the C4 scenario: the runner crashed, but nothing exists at
`project_dir/.agent_state.json` (the runner wrote `STATE_FILE` instead),
and the backlog has no open items. -/
def envNoProjectState : Env := { sampleEnv with issuesFile := none }

/-- A running, user-started manager idle since t = 0 (observed at
t = 10000 s, far past the 3600 s threshold). -/
def worldIdle : World :=
  { docker := .running, mgr := { sampleMgrUser with lastActivity := some 0 } }

/-! ## Claim theorems -/

/-- C3: for every instruction, `run_agent` resolves to exactly one of the
exit codes 0, 1, 130, never propagating an unhandled fault past the
process boundary: 0 when the engine completes without raising (state
file deleted), 130 immediately upon interruption (`status=interrupted`
persisted, no further retry), 1 after all N = 3 attempts fail
(`status=failed` persisted with the error detail), sleeping `2^attempt`
seconds between consecutive failed attempts.  Stated as: the run is
exactly the spec-side `runAgentSpec3` of the first three engine
outcomes. -/
theorem c3_run_agent_exit_code_protocol :
    ∀ (init : Option AgentRunState) (engine : Nat → EngineOutcome),
      runView (runAgent init engine 3) = runAgentSpec3 (engine 1) (engine 2) (engine 3) ∧
      ((runAgent init engine 3).exitCode = 0 ∨ (runAgent init engine 3).exitCode = 1 ∨
        (runAgent init engine 3).exitCode = 130) := by
  intro init engine
  cases h1 : engine 1 <;> cases h2 : engine 2 <;> cases h3 : engine 3 <;>
    simp [runAgent, runAgentGo, runAgentSpec3, runView, h1, h2, h3]

/-- C10: if the instruction read from stdin is empty or whitespace-only,
`main` returns exit code 1 without invoking the engine and without
writing a crash-recovery state file. -/
theorem c10_blank_prompt_exit1 :
    ∀ (stdin : String) (init : Option AgentRunState) (engine : Nat → EngineOutcome),
      pyBlank stdin = true →
      mainEntry stdin init engine =
        { exitCode := 1, stateFile := init, writes := [], sleeps := [], engineCalls := 0 } := by
  intro stdin init engine h
  simp [mainEntry, h]

/-- Witness for C10 at the concrete whitespace-only input `"  \t\n"`. -/
theorem c10_blank_prompt_witness :
    pyBlank "  \t\n" = true ∧
    mainEntry "  \t\n" none failEngine =
      { exitCode := 1, stateFile := none, writes := [], sleeps := [], engineCalls := 0 } :=
  ⟨by decide, c10_blank_prompt_exit1 "  \t\n" none failEngine (by decide)⟩

/-- C1: for every exit code outside {0, 130} — in particular every code
outside {0, 1, 130} — `_handle_agent_exit` takes exactly the same branch
as for exit code 1: the failure path. -/
theorem c1_unknown_exit_code_equals_failure_path :
    ∀ (c : Int) (env : Env) (w : World), c ≠ 0 → c ≠ 130 →
      handleAgentExit env w c = handleAgentExit env w 1 := by
  intro c env w h0 h130
  simp [handleAgentExit, h0, h130]

/-- Witness for C1 at the concrete unknown exit code 137. -/
theorem c1_unknown_exit_code_witness :
    handleAgentExit sampleEnv sampleWorldUser 137 = handleAgentExit sampleEnv sampleWorldUser 1 :=
  c1_unknown_exit_code_equals_failure_path 137 sampleEnv sampleWorldUser
    (by decide) (by decide)

/-- C2: a manager that is not `user_started` is left entirely unchanged
by `_handle_agent_exit` (no transition to `completed`, no
`restart_agent` call) for every exit code, and is skipped by every
health-monitor sweep regardless of agent liveness. -/
theorem c2_non_user_started_inert :
    ∀ (c : Int) (env : Env) (w : World), w.mgr.userStarted = false →
      (handleAgentExit env w c).step ≠ HandlerStep.restart ∧
      (handleAgentExit env w c).world = w ∧
      (monitorStep env w).attempted = false ∧
      (monitorStep env w).world = w ∧
      (∀ l : List (Env × World),
        (monitorSweep l).2 = l.map (fun ew => (monitorStep ew.1 ew.2).world)) := by
  intro c env w h
  have hmon : monitorStep env w = { attempted := false, ok := false, world := w, events := [] } := by
    simp [monitorStep, h]
  have hsweep : ∀ l : List (Env × World),
      (monitorSweep l).2 = l.map (fun ew => (monitorStep ew.1 ew.2).world) := by
    intro l
    induction l with
    | nil => rfl
    | cons ew rest ih => simp [monitorSweep, ih]
  refine ⟨?_, ?_, by rw [hmon], by rw [hmon], hsweep⟩
  · simp only [handleAgentExit]
    split
    · simp [h]
    · split
      · simp
      · simp [h]
  · simp only [handleAgentExit]
    split
    · simp [h]
    · split
      · simp
      · simp [h]

/-- Witness for C2 at exit code 7 on a running, non-user-started manager. -/
theorem c2_non_user_started_witness :
    (handleAgentExit sampleEnv sampleWorldNoUser 7).step ≠ HandlerStep.restart ∧
    (handleAgentExit sampleEnv sampleWorldNoUser 7).world = sampleWorldNoUser ∧
    (monitorStep sampleEnv sampleWorldNoUser).attempted = false ∧
    (monitorStep sampleEnv sampleWorldNoUser).world = sampleWorldNoUser := by
  have h := c2_non_user_started_inert 7 sampleEnv sampleWorldNoUser rfl
  exact ⟨h.1, h.2.1, h.2.2.1, h.2.2.2.1⟩

/-- C4: the fixed path the runner writes the JSON-encoded `AgentRunState`
to (`/home/coder/.agent_state.json`) is NOT the path the orchestrator
reads (`project_dir/.agent_state.json`, i.e. `/project/.agent_state.json`
inside the container): after a run in which every attempt raises
`RuntimeError("boom")` (exit 1, `status=failed` with the error detail
persisted at `STATE_FILE`), `_handle_agent_exit(1)` finds no file at its
path, broadcasts no agent-error notice, and reports only
`"Agent failed: unknown error"`. -/
theorem c4_state_file_path_mismatch :
    STATE_FILE ≠ orchestratorStatePath ∧
    (runAgent none failEngine 3).exitCode = 1 ∧
    (runAgent none failEngine 3).stateFile =
      some { status := "failed", attempt := 3, error := some "boom",
             errorType := some "RuntimeError" } ∧
    (handleAgentExit envNoProjectState sampleWorldUser 1).pre = [] ∧
    (handleAgentExit envNoProjectState sampleWorldUser 1).step =
      HandlerStep.done false "Agent failed: unknown error" := by
  decide

/-! ### Sanitizer lemmas -/

theorem startsWith_append_self : ∀ (p l : List Char), startsWith p (p ++ l) = true := by
  intro p
  induction p with
  | nil => intro l; rfl
  | cons c cs ih => intro l; simp [startsWith, ih]

theorem hasMarker_append_marker (x : List Char) : hasMarker (REDACTED.data ++ x) = true := by
  have h1 : startsWith REDACTED.data (REDACTED.data ++ x) = true := startsWith_append_self _ _
  show (startsWith REDACTED.data (REDACTED.data ++ x) || hasMarker ("REDACTED]".data ++ x)) = true
  rw [h1]
  rfl

theorem hasMarker_cons_of (c : Char) (cs : List Char) (h : hasMarker cs = true) :
    hasMarker (c :: cs) = true := by
  simp [hasMarker, h]

theorem substGo_eq_or_marker (p : Pat) :
    ∀ (l : List Char) (fuel : Nat),
      substGo p fuel l = l ∨ hasMarker (substGo p fuel l) = true := by
  intro l
  induction l with
  | nil => intro fuel; cases fuel <;> exact Or.inl rfl
  | cons c cs ih =>
    intro fuel
    cases fuel with
    | zero => exact Or.inl rfl
    | succ f =>
      cases hm : tryMatch p (c :: cs) with
      | some rest =>
        right
        simp [substGo, hm, hasMarker_append_marker]
      | none =>
        cases ih f with
        | inl he => left; simp [substGo, hm, he]
        | inr hk => right; simp [substGo, hm, hasMarker_cons_of _ _ hk]

theorem substGo_marker_of_match (p : Pat) :
    ∀ (l : List Char) (fuel : Nat), l.length ≤ fuel →
      matchSomewhere p l = true → hasMarker (substGo p fuel l) = true := by
  intro l
  induction l with
  | nil => intro fuel _ hms; simp [matchSomewhere] at hms
  | cons c cs ih =>
    intro fuel hf hms
    cases fuel with
    | zero => simp at hf
    | succ f =>
      cases hm : tryMatch p (c :: cs) with
      | some rest => simp [substGo, hm, hasMarker_append_marker]
      | none =>
        have hms2 : matchSomewhere p cs = true := by
          simpa [matchSomewhere, hm] using hms
        have hf2 : cs.length ≤ f := by simpa using hf
        simp [substGo, hm, hasMarker_cons_of _ _ (ih f hf2 hms2)]

theorem substGo_id_of_no_match (p : Pat) :
    ∀ (l : List Char) (fuel : Nat), matchSomewhere p l = false → substGo p fuel l = l := by
  intro l
  induction l with
  | nil => intro fuel _; cases fuel <;> rfl
  | cons c cs ih =>
    intro fuel hms
    cases fuel with
    | zero => rfl
    | succ f =>
      have hm : tryMatch p (c :: cs) = none := by
        cases hm2 : tryMatch p (c :: cs) with
        | none => rfl
        | some r => simp [matchSomewhere, hm2] at hms
      have hcs : matchSomewhere p cs = false := by
        simpa [matchSomewhere, hm] using hms
      simp [substGo, hm, ih f hcs]

theorem subst_id_of_no_match (p : Pat) (l : List Char)
    (h : matchSomewhere p l = false) : subst p l = l :=
  substGo_id_of_no_match p l l.length h

theorem subst_marker_of_match (p : Pat) (l : List Char)
    (h : matchSomewhere p l = true) : hasMarker (subst p l) = true :=
  substGo_marker_of_match p l l.length le_rfl h

theorem hasMarker_subst (p : Pat) (l : List Char)
    (h : hasMarker l = true) : hasMarker (subst p l) = true := by
  cases substGo_eq_or_marker p l l.length with
  | inl he => rw [subst, he]; exact h
  | inr hk => exact hk

theorem foldl_subst_id (pats : List Pat) :
    ∀ (l : List Char), (∀ p ∈ pats, matchSomewhere p l = false) →
      pats.foldl (fun acc p => subst p acc) l = l := by
  induction pats with
  | nil => intro l _; rfl
  | cons q qs ih =>
    intro l h
    show qs.foldl (fun acc p => subst p acc) (subst q l) = l
    rw [subst_id_of_no_match q l (h q (List.mem_cons_self q qs))]
    exact ih l (fun p hp => h p (List.mem_cons_of_mem _ hp))

theorem foldl_subst_marker_preserved (pats : List Pat) :
    ∀ (l : List Char), hasMarker l = true →
      hasMarker (pats.foldl (fun acc p => subst p acc) l) = true := by
  induction pats with
  | nil => intro l h; exact h
  | cons q qs ih =>
    intro l h
    show hasMarker (qs.foldl (fun acc p => subst p acc) (subst q l)) = true
    exact ih _ (hasMarker_subst q l h)

theorem foldl_subst_marker_of_match (pats : List Pat) :
    ∀ (l : List Char), (∃ p ∈ pats, matchSomewhere p l = true) →
      hasMarker (pats.foldl (fun acc p => subst p acc) l) = true := by
  induction pats with
  | nil =>
    rintro l ⟨p, hp, _⟩
    exact absurd hp (List.not_mem_nil p)
  | cons q qs ih =>
    rintro l ⟨p, hp, hmatch⟩
    show hasMarker (qs.foldl (fun acc p => subst p acc) (subst q l)) = true
    by_cases hq : matchSomewhere q l = true
    · exact foldl_subst_marker_preserved qs _ (subst_marker_of_match q l hq)
    · have hqf : matchSomewhere q l = false := by simpa using hq
      rw [subst_id_of_no_match q l hqf]
      rcases List.mem_cons.mp hp with rfl | hp2
      · exact absurd hmatch hq
      · exact ih l ⟨p, hp2, hmatch⟩

/-- C5 counterexample: the claim as stated fails on the code.  A bare
`key=` assignment is NOT redacted (the source pattern requires
`api[_-]?key`), and a 20-character `sk-`-prefixed token is NOT redacted
(the source pattern requires 20+ alphanumerics after `sk-`, i.e. 23+
characters in total); both lines pass through `sanitize_output`
unchanged. -/
theorem c5_sanitizer_gaps_cex :
    sanitize_output "key=hunter2" = "key=hunter2" ∧
    sanitize_output "sk-abcdefghijklmnopq" = "sk-abcdefghijklmnopq" ∧
    hasMarker ("key=hunter2" : String).data = false ∧
    hasMarker ("sk-abcdefghijklmnopq" : String).data = false := by
  decide

/-- C5 (amended): every container-output line goes through
`sanitize_output` before broadcast, identically in both streaming code
paths; the sanitizer replaces substrings matching the six source
patterns (`sk-` + 20 or more alphanumerics, `ANTHROPIC_API_KEY=`,
`api[_-]?key[=:]`, `token[=:]`, `password[=:]`, `secret[=:]`, each
case-insensitive — api-key style assignments rather than bare `key=`)
with `[REDACTED]`, so any line where some pattern matches contains the
marker afterwards, and lines where no pattern matches pass through
unchanged. -/
theorem c5_sanitizer_amended :
    ∀ (s : String),
      (hasSensitive s = false → sanitize_output s = s) ∧
      (hasSensitive s = true → hasMarker (sanitize_output s).data = true) ∧
      streamLogsLine s = sendInstructionLine s ∧
      streamLogsLine s = sanitize_output (pyRstrip s) := by
  intro s
  refine ⟨?_, ?_, rfl, rfl⟩
  · intro h
    have hall : ∀ p ∈ SENSITIVE_PATTERNS, matchSomewhere p s.data = false := by
      intro p hp
      by_contra hc
      have ht : matchSomewhere p s.data = true := by
        cases hv : matchSomewhere p s.data with
        | false => exact absurd hv hc
        | true => rfl
      have : hasSensitive s = true :=
        List.any_eq_true.mpr ⟨p, hp, ht⟩
      simp [this] at h
    show String.mk (SENSITIVE_PATTERNS.foldl (fun l p => subst p l) s.data) = s
    rw [foldl_subst_id _ _ hall]
  · intro h
    obtain ⟨p, hp, hm⟩ := List.any_eq_true.mp h
    exact foldl_subst_marker_of_match _ _ ⟨p, hp, hm⟩

/-- Witness for C5 at the concrete line `"token=abc123"`, which the
sanitizer redacts. -/
theorem c5_sanitizer_witness :
    hasSensitive "token=abc123" = true ∧
    hasMarker (sanitize_output "token=abc123").data = true :=
  ⟨by decide, (c5_sanitizer_amended "token=abc123").2.1 (by decide)⟩

/-- C6 counterexample: in the advance scenario (`user_started`, exit 0,
open backlog work, all Docker calls healthy) the status trace of the
full exit-handling sequence DOES contain a transition to `stopped`
(fired by the `stop()` inside `restart_agent()`), refuting "status
remains `running` throughout — never transiently `stopped`"; the next
instruction is nevertheless dispatched and the final status is
`running`. -/
theorem c6_transient_stopped_cex :
    sampleWorldUser.mgr.userStarted = true ∧
    hasOpenFeatures sampleEnv = true ∧
    Event.statusChange MStatus.stopped ∈ (handleAgentExitFull sampleEnv sampleWorldUser 0).events ∧
    Event.dispatch "Implement the next feature" ∈ (handleAgentExitFull sampleEnv sampleWorldUser 0).events ∧
    (handleAgentExitFull sampleEnv sampleWorldUser 0).world.mgr.status = MStatus.running := by
  decide

/-- C6 (amended): in the advance scenario (`user_started = true`, exit
code 0, open backlog work, healthy Docker/SDK oracles), the manager
automatically reads the project coding prompt and dispatches it as the
next instruction with no external intervention, ending with status
`running` and the restart guard cleared — but the status transiently
passes through `stopped` during the restart sequence. -/
theorem c6_advance_amended :
    ∀ (env : Env) (w : World) (p : String),
      w.mgr.userStarted = true →
      hasOpenFeatures env = true →
      w.docker = DockerState.running →
      env.stopOutcome = StopOutcome.ok →
      env.promptExists = true →
      env.promptContent = some p →
      env.dockerStartOk = true →
      env.sdkReady = true →
      Event.dispatch p ∈ (handleAgentExitFull env w 0).events ∧
      Event.statusChange MStatus.stopped ∈ (handleAgentExitFull env w 0).events ∧
      (handleAgentExitFull env w 0).world.mgr.status = MStatus.running ∧
      (handleAgentExitFull env w 0).world.mgr.restarting = false := by
  intro env w p hu ho hd hs hp hpc hds hsdk
  cases hl : w.mgr.logTask <;>
    simp [handleAgentExitFull, handleAgentExit, restartAgent, stop, start,
      dispatchInstruction, syncStatus, setStatus, hu, ho, hd, hs, hp, hpc,
      hds, hsdk, hl]

/-- Witness for C6 on the concrete healthy fixture. -/
theorem c6_advance_witness :
    Event.dispatch "Implement the next feature" ∈ (handleAgentExitFull sampleEnv sampleWorldUser 0).events ∧
    Event.statusChange MStatus.stopped ∈ (handleAgentExitFull sampleEnv sampleWorldUser 0).events ∧
    (handleAgentExitFull sampleEnv sampleWorldUser 0).world.mgr.status = MStatus.running ∧
    (handleAgentExitFull sampleEnv sampleWorldUser 0).world.mgr.restarting = false :=
  c6_advance_amended sampleEnv sampleWorldUser "Implement the next feature"
    rfl rfl rfl rfl rfl rfl rfl rfl

/-- C7: `restart_agent` sets the `restarting` guard as its first action
(before stopping the sandbox), always leaves it cleared in the final
state (its clearing is the last event on every path — success or
failure), and any manager whose guard is set is skipped by the health
monitor: its sweep step neither calls `restart_agent` nor changes it. -/
theorem c7_restart_guard_scoped :
    ∀ (env : Env) (w : World) (env2 : Env) (w2 : World),
      (restartAgent env w).world.mgr.restarting = false ∧
      (restartAgent env w).events.head? = some (Event.setRestarting true) ∧
      (restartAgent env w).events.getLast? = some (Event.setRestarting false) ∧
      (w2.mgr.restarting = true →
        (monitorStep env2 w2).attempted = false ∧ (monitorStep env2 w2).world = w2) := by
  intro env w env2 w2
  refine ⟨rfl, rfl, ?_, ?_⟩
  · obtain ⟨mid, hmid⟩ : ∃ mid, (restartAgent env w).events =
        (Event.setRestarting true :: mid) ++ [Event.setRestarting false] := ⟨_, rfl⟩
    rw [hmid, List.getLast?_append_cons]
    rfl
  · intro h
    cases hu : w2.mgr.userStarted <;> simp [monitorStep, hu, h]

/-- Witness for C7: the guard-scoping facts on the healthy fixture, and
the monitor skipping a concrete mid-restart manager. -/
theorem c7_restart_guard_witness :
    (restartAgent sampleEnv sampleWorldUser).world.mgr.restarting = false ∧
    (restartAgent sampleEnv sampleWorldUser).events.head? = some (Event.setRestarting true) ∧
    (restartAgent sampleEnv sampleWorldUser).events.getLast? = some (Event.setRestarting false) ∧
    (monitorStep sampleEnv sampleWorldRestarting).attempted = false ∧
    (monitorStep sampleEnv sampleWorldRestarting).world = sampleWorldRestarting := by
  have h := c7_restart_guard_scoped sampleEnv sampleWorldUser sampleEnv sampleWorldRestarting
  exact ⟨h.1, h.2.1, h.2.2.1, (h.2.2.2 rfl).1, (h.2.2.2 rfl).2⟩

/-- C8 counterexample: `start()` with NO instruction, on a manager whose
container was never created, still sets `user_started = true`
(`container_manager.py` line 311 sets it unconditionally on the
(re)start path), refuting "user_started becomes true only when a caller
supplied an instruction". -/
theorem c8_user_started_without_instruction_cex :
    sampleWorldFresh.mgr.userStarted = false ∧
    (start sampleEnv sampleWorldFresh none).ok = true ∧
    (start sampleEnv sampleWorldFresh none).world.mgr.userStarted = true := by
  decide

/-- C8 (amended): on every successful (re)start from a non-running
container, `start()` records `started_at` and `last_activity`, begins
the output-streaming task, and sets `user_started = true`
unconditionally — with or without an instruction; `start_container_only`
never changes `user_started`. -/
theorem c8_start_flags_amended :
    ∀ (env : Env) (w : World) (instruction : Option String),
      w.docker ≠ DockerState.running →
      (w.docker = DockerState.stoppedC → env.dockerStartOk = true) →
      (w.docker = DockerState.absent → env.dockerRunOk = true) →
      ((start env w instruction).world.mgr.userStarted = true ∧
       (start env w instruction).world.mgr.startedAt = some env.now ∧
       (start env w instruction).world.mgr.lastActivity = some env.now ∧
       (start env w instruction).world.mgr.logTask = true) ∧
      (∀ (env2 : Env) (w2 : World),
        (startContainerOnly env2 w2).world.mgr.userStarted = w2.mgr.userStarted) := by
  intro env w instruction hd hso hro
  constructor
  · cases hdc : w.docker with
    | running => exact absurd hdc hd
    | stoppedC =>
      cases instruction <;>
        cases hsdk : env.sdkReady <;>
          simp [start, dispatchInstruction, syncStatus, setStatus, hdc, hso hdc, hsdk]
    | absent =>
      cases instruction <;>
        cases hsdk : env.sdkReady <;>
          simp [start, dispatchInstruction, syncStatus, setStatus, hdc, hro hdc, hsdk]
  · intro env2 w2
    cases hdc : w2.docker <;>
      cases hdo : env2.dockerStartOk <;>
        cases hro2 : env2.dockerRunOk <;>
          simp [startContainerOnly, syncStatus, setStatus, hdc, hdo, hro2]

/-- Witness for C8 on a never-created container with an instruction. -/
theorem c8_start_flags_witness :
    ((start sampleEnv sampleWorldFresh (some "task")).world.mgr.userStarted = true ∧
     (start sampleEnv sampleWorldFresh (some "task")).world.mgr.startedAt = some sampleEnv.now ∧
     (start sampleEnv sampleWorldFresh (some "task")).world.mgr.lastActivity = some sampleEnv.now ∧
     (start sampleEnv sampleWorldFresh (some "task")).world.mgr.logTask = true) ∧
    (∀ (env2 : Env) (w2 : World),
      (startContainerOnly env2 w2).world.mgr.userStarted = w2.mgr.userStarted) :=
  c8_start_flags_amended sampleEnv sampleWorldFresh (some "task")
    (by decide) (fun h => by cases h) (fun _ => rfl)

/-- C9: the idle sweep treats every manager independently (an error —
reported failure — while stopping one manager cannot affect how the
others are processed): it stops exactly the managers whose cached status
is `running` and whose `last_activity` is more than the 60-minute
threshold ago, leaves every other manager untouched, and a manager with
no recorded activity is never idle. -/
theorem c9_idle_sweep_spec :
    ∀ (l : List (Env × World)),
      (cleanupIdleContainers l).2 = l.map (fun ew => (cleanupStep ew.1 ew.2).2) ∧
      (cleanupIdleContainers l).1 = l.filterMap (fun ew => (cleanupStep ew.1 ew.2).1) ∧
      (∀ (env : Env) (w : World),
        w.mgr.status = MStatus.running → isIdle env.now w.mgr = true →
        cleanupStep env w =
          (if (stop env w).ok then some w.mgr.containerName else none, (stop env w).world)) ∧
      (∀ (env : Env) (w : World),
        ¬(w.mgr.status = MStatus.running ∧ isIdle env.now w.mgr = true) →
        cleanupStep env w = (none, w)) ∧
      (∀ (env : Env) (w : World), w.mgr.lastActivity = none → isIdle env.now w.mgr = false) := by
  intro l
  refine ⟨?_, ?_, ?_, ?_, ?_⟩
  · induction l with
    | nil => rfl
    | cons ew rest ih =>
      cases hn : (cleanupStep ew.1 ew.2).1 <;> simp [cleanupIdleContainers, hn, ih]
  · induction l with
    | nil => rfl
    | cons ew rest ih =>
      cases hn : (cleanupStep ew.1 ew.2).1 <;> simp [cleanupIdleContainers, hn, ih]
  · intro env w h1 h2
    simp [cleanupStep, h1, h2]
  · intro env w h
    have hb : (w.mgr.status = MStatus.running && isIdle env.now w.mgr) = false := by
      rcases hs : w.mgr.status <;> rcases hi : isIdle env.now w.mgr <;>
        simp_all
    simp [cleanupStep, hb]
  · intro env w h
    simp [isIdle, h]

/-- Witness for C9: the sweep stops the concrete idle running manager. -/
theorem c9_idle_sweep_witness :
    cleanupStep sampleEnv worldIdle =
      (if (stop sampleEnv worldIdle).ok then some worldIdle.mgr.containerName else none,
       (stop sampleEnv worldIdle).world) :=
  (c9_idle_sweep_spec []).2.2.1 sampleEnv worldIdle rfl (by decide)

end Autocoder
